import Mathlib

/-!
Verification of the watch-table lifecycle and event-decoding engine of
`inotify.py` against its natural-language specification.  The Python
source is shallowly embedded: pure fragments become Lean functions,
the per-event body of the `_detect` loop becomes an explicit state
transition, raised exceptions become `Except` errors, and the results
of external kernel calls (`inotify_add_watch`, `os.read`) are passed
in as explicit parameters.
-/

namespace Inotify

/-- The flag enumeration `_EVENTS` (src/inotify.py lines 33-60), as an
association list in declaration order.  Python 3.7+ dicts preserve
insertion order, so this list order is exactly the iteration order of
`_EVENTS.keys()`. -/
def EVENTS : List (String × Nat) :=
  [ ("ACCESS"       , 0x00000001)
  , ("MODIFY"       , 0x00000002)
  , ("ATTRIB"       , 0x00000004)
  , ("CLOSE_WRITE"  , 0x00000008)
  , ("CLOSE_NOWRITE", 0x00000010)
  , ("OPEN"         , 0x00000020)
  , ("MOVED_FROM"   , 0x00000040)
  , ("MOVED_TO"     , 0x00000080)
  , ("CREATE"       , 0x00000100)
  , ("DELETE"       , 0x00000200)
  , ("DELETE_SELF"  , 0x00000400)
  , ("MOVE_SELF"    , 0x00000800)
  , ("UNMOUNT"      , 0x00002000)
  , ("Q_OVERFLOW"   , 0x00004000)
  , ("IGNORED"      , 0x00008000)
  , ("CLOSE"        , 0x00000008 ||| 0x00000010)
  , ("MOVE"         , 0x00000040 ||| 0x00000080)
  , ("ONLYDIR"      , 0x01000000)
  , ("DONT_FOLLOW"  , 0x02000000)
  , ("EXCL_UNLINK"  , 0x04000000)
  , ("MASK_ADD"     , 0x20000000)
  , ("ISDIR"        , 0x40000000)
  , ("ONESHOT"      , 0x80000000) ]

/-- Dictionary lookup `_EVENTS[n]`, returning `none` where Python would
raise `KeyError`. -/
def eventsLookup (n : String) : Option Nat :=
  (EVENTS.find? (fun p => p.1 == n)).map Prod.snd

/-- The bit value `_EVENTS[n]` for names known to be present (used for
the literal accesses `_EVENTS['CREATE']` and so on in the source). -/
def eventVal (n : String) : Nat :=
  (eventsLookup n).getD 0

/-- The function `_decode_flag` (src lines 64-71): it copies `_EVENTS`,
deletes only the key `MOVE` from the copy, and appends every remaining
name whose bit value intersects `flag`, in declaration order. -/
def decode_flag (flag : Nat) : List String :=
  ((EVENTS.filter (fun p => p.1 != "MOVE")).filter
    (fun p => p.2 &&& flag != 0)).map Prod.fst

/-- Python single-character split `s.split(",")` on a character list:
every comma starts a new field and empty fields are kept. -/
def splitCommaChars : List Char → List (List Char)
  | [] => [[]]
  | c :: cs =>
    match splitCommaChars cs, c with
    | r, ',' => [] :: r
    | [], _ => [[c]]
    | h :: t, _ => (c :: h) :: t

/-- Python `event_string.split(",")` on strings. -/
def pySplitComma (s : String) : List String :=
  (splitCommaChars s.data).map (fun l => String.mk l)

/-- Python `str.upper()` restricted to ASCII event names. -/
def pyUpper (s : String) : String :=
  String.mk (s.data.map Char.toUpper)

/-- Splitting and upper-casing of the `--event` option inputs
(src lines 228-235): each input is split on commas, upper-cased, and
appended to the event list whether or not it is a known name (only the
help text is printed for an unknown name; the name is still kept). -/
def parse_event_names (inputs : List String) : List String :=
  (inputs.map (fun s => (pySplitComma s).map pyUpper)).flatten

/-- The mask-building loop `for x in events: mask |= _EVENTS[x]`
(src lines 239-241).  A name absent from `_EVENTS` makes Python raise
an uncaught `KeyError` carrying that name, modelled as the error case. -/
def build_mask (names : List String) : Except String Nat :=
  names.foldlM
    (fun m n =>
      match eventsLookup n with
      | some v => Except.ok (m ||| v)
      | none => Except.error n)
    0

/-- Defaulting of an empty mask to `0xfff` (src lines 242-243). -/
def default_mask (m : Nat) : Nat :=
  if m = 0 then 0xfff else m

/-- The startup boolean `_include_create_event` (src lines 246-250):
true exactly when the requested mask already has the create bit. -/
def include_create_of (m : Nat) : Bool :=
  (m &&& eventVal "CREATE") != 0

/-- Force-enabling of the create bit in recursive mode (src lines
246-252): the mask is widened only when create was not requested and
recursive mode is on. -/
def apply_recursive_create (m : Nat) (recursiveMode : Bool) : Nat :=
  if (m &&& eventVal "CREATE") != 0 then m
  else if recursiveMode then m ||| eventVal "CREATE" else m

/-- Python `name.replace(chr(0), str())`: removes every NUL character
(src lines 303 and 309). -/
def stripNul (s : String) : String :=
  String.mk (s.data.filter (fun c => c != Char.ofNat 0))

/-- Lookup in the `_watch_descriptors` dict, modelled as an
insertion-ordered association list: `none` where Python raises
`KeyError`. -/
def dictGet (k : Int) (d : List (Int × String)) : Option String :=
  (d.find? (fun p => p.1 == k)).map Prod.snd

/-- Python dict assignment `d[k] = v`: overwrites an existing key in
place, otherwise appends at the end. -/
def dictSet (k : Int) (v : String) (d : List (Int × String)) :
    List (Int × String) :=
  if d.any (fun p => p.1 == k) then
    d.map (fun p => if p.1 == k then (k, v) else p)
  else d ++ [(k, v)]

/-- Python `del d[k]` minus the `KeyError` check (the caller of this
helper checks presence first). -/
def dictDel (k : Int) (d : List (Int × String)) : List (Int × String) :=
  d.filter (fun p => p.1 != k)

/-- Python truthiness of `deleting_watch_descriptor` (src line 321):
both `None` and the integer 0 are falsy. -/
def pyTruthy : Option Int → Bool
  | none => false
  | some w => w != 0

/-- The caller-visibility test at src lines 300-301: an event is
yielded unless its mask carries the ignored bit, or carries the create
bit while `_include_create_event` is false. -/
def event_visible (flags : Nat) (includeCreate : Bool) : Bool :=
  !((flags &&& eventVal "IGNORED" != 0) ||
    ((flags &&& eventVal "CREATE" != 0) && !includeCreate))

/-- A decoded event as consumed by `_detect`: watch descriptor, mask,
and the (already UTF-8 decoded) name string. -/
structure Event where
  wd : Int
  flags : Nat
  name : String

/-- The mutable state of the `_detect` loop: the global
`_watch_descriptors` table and the single `deleting_watch_descriptor`
slot. -/
structure DetectState where
  table : List (Int × String)
  pending : Option Int
deriving DecidableEq

/-- Result of processing one decoded event inside `_detect`: the
optional yielded triple `(directory, decoded flags, cleaned name)` and
the successor state. -/
structure StepResult where
  output : Option (String × List String × String)
  state : DetectState
deriving DecidableEq

/-- The body of the per-event loop of `_detect` (src lines 297-327) for
one decoded event.  `addWatchRet` is the value the external call
`inotify_add_watch` would return for this event (-1 on failure); it is
only consulted in the create-directory branch.  `Except.error` marks a
raised `KeyError`: the directory lookup at line 298, or the `del` at
line 326 on an absent key. -/
def detect_step (includeCreate recursiveMode : Bool) (addWatchRet : Int)
    (s : DetectState) (ev : Event) : Except String StepResult :=
  match dictGet ev.wd s.table with
  | none => Except.error "KeyError"
  | some directory =>
    let out :=
      if event_visible ev.flags includeCreate then
        some (directory, decode_flag ev.flags, stripNul ev.name)
      else none
    if !recursiveMode then Except.ok ⟨out, s⟩
    else if (ev.flags &&& eventVal "CREATE" != 0) &&
            (ev.flags &&& eventVal "ISDIR" != 0) then
      let path := directory ++ stripNul ev.name ++ "/"
      Except.ok ⟨out, ⟨dictSet addWatchRet path s.table, s.pending⟩⟩
    else if ev.flags &&& eventVal "DELETE_SELF" != 0 then
      Except.ok ⟨out, ⟨s.table, some ev.wd⟩⟩
    else if (ev.flags &&& eventVal "DELETE" != 0) &&
            (ev.flags &&& eventVal "ISDIR" != 0) then
      if !pyTruthy s.pending then Except.ok ⟨out, s⟩
      else
        match s.pending with
        | some w =>
          if (dictGet w s.table).isSome then
            Except.ok ⟨out, ⟨dictDel w s.table, none⟩⟩
          else Except.error "KeyError"
        | none => Except.error "KeyError"
    else Except.ok ⟨out, s⟩

/-- Little-endian bytes of a 32-bit field, as packed by the kernel and
unpacked by `struct.unpack_from` with native (x86, little-endian)
layout. -/
def le32 (n : Nat) : List Nat :=
  [n % 256, n / 256 % 256, n / 65536 % 256, n / 16777216 % 256]

/-- Value of four little-endian bytes as an unsigned 32-bit field (the
I conversions of the format string at src line 102). -/
def le32dec (b0 b1 b2 b3 : Nat) : Nat :=
  b0 + 256 * b1 + 65536 * b2 + 16777216 * b3

/-- Signed reading of an unsigned 32-bit value (the i conversion used
for the watch descriptor field). -/
def i32dec (u : Nat) : Int :=
  if u < 2147483648 then (u : Int) else (u : Int) - 4294967296

/-- The 32-bit two-complement image of a signed watch descriptor, used
when building a well-formed record buffer. -/
def u32enc (w : Int) : Nat :=
  (w % 4294967296).toNat

/-- One well-formed kernel notification record: the four header fields
(the stored name length being the length of the name bytes) plus the
NUL-padded name bytes. -/
structure InotifyRecord where
  wd : Int
  mask : Nat
  cookie : Nat
  name : List Nat
deriving DecidableEq

/-- Field bounds making a record representable in the binary layout. -/
def wfRecord (r : InotifyRecord) : Prop :=
  -2147483648 <= r.wd ∧ r.wd < 2147483648 ∧ r.mask < 4294967296 ∧
  r.cookie < 4294967296 ∧ r.name.length < 4294967296

instance (r : InotifyRecord) : Decidable (wfRecord r) := by
  unfold wfRecord; infer_instance

/-- The byte image of one record: a 16-byte header of four
little-endian 32-bit fields (watch id, mask, cookie, name length)
followed by exactly the name bytes. -/
def encode_record (r : InotifyRecord) : List Nat :=
  le32 (u32enc r.wd) ++ le32 r.mask ++ le32 r.cookie ++
    le32 r.name.length ++ r.name

/-- A buffer that is a concatenation of well-formed records. -/
def encode_records (rs : List InotifyRecord) : List Nat :=
  (rs.map encode_record).flatten

/-- The record-parsing loop of `_detect_inotify` (src lines 101-110),
fuelled for structural recursion (the fuel only bounds the number of
iterations; each iteration consumes at least 16 bytes, so a fuel of the
buffer length is always sufficient): unpack the four header fields,
advance 16 bytes, slice out `name_len` bytes (a Python slice truncates
silently at the end of the buffer, modelled by `take`), advance again,
and yield `[wd, mask, name]` - the cookie bytes are consumed by the
header unpack but never appear in the yielded triple.  `none` models
the `struct.error` Python raises when 1 to 15 bytes remain. -/
def detect_inotify_go : Nat → List Nat → Option (List (Int × Nat × List Nat))
  | _, [] => some []
  | 0, _ :: _ => none
  | fuel + 1, a0 :: a1 :: a2 :: a3 :: b0 :: b1 :: b2 :: b3 ::
      _c0 :: _c1 :: _c2 :: _c3 :: d0 :: d1 :: d2 :: d3 :: rest =>
    let name_len := le32dec d0 d1 d2 d3
    match detect_inotify_go fuel (rest.drop name_len) with
    | some out =>
      some ((i32dec (le32dec a0 a1 a2 a3), le32dec b0 b1 b2 b3,
        rest.take name_len) :: out)
    | none => none
  | _ + 1, _ => none

/-- The parse of one read buffer by `_detect_inotify`. -/
def detect_inotify_parse (buf : List Nat) :
    Option (List (Int × Nat × List Nat)) :=
  detect_inotify_go buf.length buf

/-- External collaborators consumed by session setup (spec section 6):
path normalization, existence and directory checks, and the recursive
directory enumeration used only at startup; `walk` lists the
(root, subdirectory-names) pairs of `os.walk` in traversal order. -/
structure FileSystem where
  normpath : String → String
  pathExists : String → Bool
  isDir : String → Bool
  walk : String → List (String × List String)

/-- Python `rstrip(os.sep)`: drops trailing path separators. -/
def rstripSlash (s : String) : String :=
  String.mk (s.data.reverse.dropWhile (fun c => c == '/')).reverse

/-- The subdirectory paths appended when walking one directory target
in recursive mode (src lines 267-271). -/
def walkPaths (fs : FileSystem) (path : String) : List String :=
  ((fs.walk path).map (fun rd => rd.2.map
    (fun d => rd.1 ++ "/" ++ rstripSlash d ++ "/"))).flatten

/-- The path-collection loop of `wait` (src lines 260-273): every
target is normalized and existence-checked; a missing target raises
`FileNotFoundError` at once; a directory target contributes itself
(with exactly one trailing separator) and, in recursive mode, every
subdirectory found by the walk; a non-directory target contributes
itself unchanged. -/
def collect_paths (fs : FileSystem) (recursiveMode : Bool) :
    List String → Except String (List String)
  | [] => Except.ok []
  | t :: ts =>
    let p := fs.normpath t
    if fs.pathExists p then
      let entries :=
        if fs.isDir p then
          (rstripSlash p ++ "/") ::
            (if recursiveMode then walkPaths fs p else [])
        else [p]
      match collect_paths fs recursiveMode ts with
      | Except.ok rest => Except.ok (entries ++ rest)
      | Except.error e => Except.error e
    else Except.error ("specified file is not exist: " ++ p)

/-- Setup result: the outcome (`error` models the `FileNotFoundError`
caught at src line 285, which `wait` maps to status 1), the watch table
built, and the trace of paths passed to `inotify_add_watch`, in call
order. -/
structure SetupResult where
  outcome : Except String Unit
  table : List (Int × String)
  calls : List String

/-- The setup phase of `wait` (src lines 258-278): all target paths are
collected and existence-checked first, and only then is each collected
path registered with the kernel facility, `addWatch` giving the
descriptor the external `inotify_add_watch` call returns for each path.
The exception from the collection loop skips the registration loop
entirely, as in the source where both live under one `try`. -/
def wait_setup (fs : FileSystem) (addWatch : String → Int)
    (recursiveMode : Bool) (targets : List String) : SetupResult :=
  match collect_paths fs recursiveMode targets with
  | Except.error e => ⟨Except.error e, [], []⟩
  | Except.ok paths =>
    ⟨Except.ok (), paths.foldl (fun t p => dictSet (addWatch p) p t) [],
      paths⟩

/-- Linux signal number of SIGQUIT, the signal the watchdog
delivers. -/
def SIGQUIT : Nat := 3

/-- The handler `_handler` (src lines 73-74): `sys.exit(2)` whatever
signal number it receives; its value is the exit status it forces. -/
def handler (_signum : Nat) : Nat := 2

/-- The OK termination status of a run that ends normally. -/
def OK_STATUS : Nat := 0

/-- The signal binding installed by `wait` before watching starts
(src line 218): SIGQUIT is bound to `_handler`.  The diagnostic
SIGUSR1 hook (src lines 222-224) never terminates the run and is out
of scope. -/
def wait_signal_table (sig : Nat) : Option (Nat → Nat) :=
  if sig = SIGQUIT then some handler else none

/-- The signal `_kill_timer` sends to the main process when the quiet
period elapses (src line 80). -/
def kill_timer_signal : Nat := SIGQUIT

/-- Arming condition of the watchdog: `_detect_inotify` starts the
kill timer before each blocking read exactly when a positive timeout
is configured (src lines 97-98). -/
def watchdog_armed (timeout : ℚ) : Bool :=
  decide (0 < timeout)

/-- Modelled from the spec: expiry of the armed watchdog during a
blocking read delivers `kill_timer_signal` to the session process, and
the installed handler for that signal determines the exit status; the
real-time race between the timer process and the read is abstracted
into whether an event arrived within the quiet period. -/
def timeout_exit_status : Option Nat :=
  (wait_signal_table kill_timer_signal).map (fun h => h kill_timer_signal)

/-- Session termination status for a session whose watchdog is armed
with the given timeout, where `eventWithinTimeout` records whether any
read completed inside the quiet period: if the armed watchdog fires
first the delivered signal handler ends the session, otherwise the
session continues (modelled as `none`). -/
def session_timeout_status (timeout : ℚ) (eventWithinTimeout : Bool) :
    Option Nat :=
  if watchdog_armed timeout && !eventWithinTimeout then timeout_exit_status
  else none

end Inotify

open Inotify

/-- C4: the claim states that the flag-decode operation never emits a
composite name, neither MOVE nor CLOSE.  The code deletes only MOVE
from the iterated copy of the enumeration (src line 66), so decoding
the mask of CLOSE_WRITE alone emits the composite CLOSE alongside it:
the code contradicts the stated design (and the MOVE half shows the
exclusion of composites was intended). -/
theorem decode_flag_emits_close :
    decode_flag (eventVal "CLOSE_WRITE") = ["CLOSE_WRITE", "CLOSE"] ∧
    "CLOSE" ∈ decode_flag (eventVal "CLOSE_WRITE") ∧
    decode_flag (eventVal "MOVED_FROM" ||| eventVal "MOVED_TO")
      = ["MOVED_FROM", "MOVED_TO"] := by
  refine ⟨rfl, ?_, rfl⟩
  decide

/-- C5: the claim states the single-flag round trip
`decode(encode ({name})) = [name]` for every valid flag name.  It fails
at the name CLOSE_NOWRITE: encoding gives the bit 0x10, and decoding
that mask yields the two names CLOSE_NOWRITE and CLOSE, because the
composite CLOSE is not excluded from decode output. -/
theorem roundtrip_fails_close_nowrite :
    eventsLookup "CLOSE_NOWRITE" = some 16 ∧
    decode_flag 16 = ["CLOSE_NOWRITE", "CLOSE"] ∧
    decode_flag 16 ≠ ["CLOSE_NOWRITE"] := by
  refine ⟨rfl, rfl, ?_⟩
  decide

/-- C9: the claim states that an unknown event name fails cleanly with
an UnknownFlag outcome.  The code appends the (upper-cased) unknown
name to the event list anyway (src line 235) and then the mask-building
loop looks it up, so Python raises an uncaught KeyError carrying the
name: the run crashes with an internal error instead of the intended
clean failure (the clean path - help text, status 1 - is dead code). -/
theorem unknown_event_name_keyerror :
    build_mask (parse_event_names ["foo"]) = Except.error "FOO" ∧
    eventsLookup "FOO" = none := ⟨rfl, rfl⟩

/-- C1 counterexample: the claim states that an event carrying the
ignored bit for the watch id marked PENDING_REMOVAL finalizes the
removal, unregistering that id.  In the code the ignored branch is
commented out (src line 319): with id 2 pending, a pure ignored event
for id 2 leaves the table and the pending slot completely unchanged,
and id 2 stays registered. -/
theorem ignored_event_not_finalizing :
    detect_step true true 7 ⟨[(1, "d/"), (2, "d/sub/")], some 2⟩ ⟨2, 32768, ""⟩
      = Except.ok ⟨none, ⟨[(1, "d/"), (2, "d/sub/")], some 2⟩⟩ ∧
    dictGet 2 [(1, "d/"), (2, "d/sub/")] = some "d/sub/" ∧
    (32768 &&& eventVal "IGNORED" != 0) = true := ⟨rfl, rfl, rfl⟩

/-- C1 amended: in recursive mode, for any event whose watch id
resolves in the table: a delete-self event marks its watch id as the
pending removal; a later event carrying both the delete and
is-directory bits, while the pending slot holds a truthy registered id,
finalizes by unregistering that pending id (whatever watch reported the
delete); an ignored-bit event matching no branch is dropped with no
table mutation and no output; and a delete+is-directory event with no
truthy pending id is dropped. -/
theorem removal_state_machine (ic : Bool) (awr : Int) (s : DetectState) (ev : Event)
    (hin : (dictGet ev.wd s.table).isSome = true) :
    (((ev.flags &&& eventVal "CREATE" != 0) && (ev.flags &&& eventVal "ISDIR" != 0)) = false →
      (ev.flags &&& eventVal "DELETE_SELF" != 0) = true →
      ∃ out, detect_step ic true awr s ev = Except.ok ⟨out, ⟨s.table, some ev.wd⟩⟩) ∧
    (∀ w, s.pending = some w → (w != 0) = true → (dictGet w s.table).isSome = true →
      ((ev.flags &&& eventVal "CREATE" != 0) && (ev.flags &&& eventVal "ISDIR" != 0)) = false →
      (ev.flags &&& eventVal "DELETE_SELF" != 0) = false →
      ((ev.flags &&& eventVal "DELETE" != 0) && (ev.flags &&& eventVal "ISDIR" != 0)) = true →
      ∃ out, detect_step ic true awr s ev = Except.ok ⟨out, ⟨dictDel w s.table, none⟩⟩) ∧
    ((ev.flags &&& eventVal "IGNORED" != 0) = true →
      ((ev.flags &&& eventVal "CREATE" != 0) && (ev.flags &&& eventVal "ISDIR" != 0)) = false →
      (ev.flags &&& eventVal "DELETE_SELF" != 0) = false →
      ((ev.flags &&& eventVal "DELETE" != 0) && (ev.flags &&& eventVal "ISDIR" != 0)) = false →
      detect_step ic true awr s ev = Except.ok ⟨none, s⟩) ∧
    (pyTruthy s.pending = false →
      ((ev.flags &&& eventVal "CREATE" != 0) && (ev.flags &&& eventVal "ISDIR" != 0)) = false →
      (ev.flags &&& eventVal "DELETE_SELF" != 0) = false →
      ((ev.flags &&& eventVal "DELETE" != 0) && (ev.flags &&& eventVal "ISDIR" != 0)) = true →
      ∃ out, detect_step ic true awr s ev = Except.ok ⟨out, s⟩) := by
  obtain ⟨d, hd⟩ : ∃ d, dictGet ev.wd s.table = some d := by
    cases h : dictGet ev.wd s.table with
    | none => rw [h] at hin; simp at hin
    | some d => exact ⟨d, rfl⟩
  refine ⟨?_, ?_, ?_, ?_⟩
  · intro h1 h2
    refine ⟨if event_visible ev.flags ic then
      some (d, decode_flag ev.flags, stripNul ev.name) else none, ?_⟩
    simp [detect_step, hd, h1, h2]
  · intro w hp hw hwin h1 h2 h3
    refine ⟨if event_visible ev.flags ic then
      some (d, decode_flag ev.flags, stripNul ev.name) else none, ?_⟩
    simp [detect_step, hd, h1, h2, h3, pyTruthy, hp, hw, hwin]
  · intro hig h1 h2 h3
    have hv : event_visible ev.flags ic = false := by
      simp [event_visible, hig]
    simp [detect_step, hd, h1, h2, h3, hv]
  · intro hp h1 h2 h3
    refine ⟨if event_visible ev.flags ic then
      some (d, decode_flag ev.flags, stripNul ev.name) else none, ?_⟩
    simp [detect_step, hd, h1, h2, h3, hp]

/-- Witness for the amended removal state machine: with ids 1 and 2
registered and id 2 pending, a delete+is-directory event reported by
watch 1 finalizes the removal of id 2. -/
theorem removal_state_machine_witness :
    ∃ out, detect_step true true 7 ⟨[(1, "d/"), (2, "d/sub/")], some 2⟩
        ⟨1, 1073742336, "sub"⟩
      = Except.ok ⟨out, ⟨dictDel 2 [(1, "d/"), (2, "d/sub/")], none⟩⟩ :=
  (removal_state_machine true 7 ⟨[(1, "d/"), (2, "d/sub/")], some 2⟩
    ⟨1, 1073742336, "sub"⟩ rfl).2.1 2 rfl rfl rfl rfl rfl rfl

/-- C2: the claim states that a failed subdirectory registration during
recursive propagation is skipped without corrupting the table.  The
code never checks the return value of `inotify_add_watch` (src lines
311-314): when the call fails and returns -1, the entry -1 is inserted
into the watch table mapped to the path of the vanished directory, so
an invalid watch id is live in the table. -/
theorem failed_add_watch_corrupts_table :
    detect_step false true (-1) ⟨[(1, "d/")], none⟩ ⟨1, 1073742080, "sub"⟩
      = Except.ok ⟨none, ⟨[(1, "d/"), (-1, "d/sub/")], none⟩⟩ ∧
    dictGet (-1) [(1, "d/"), (-1, "d/sub/")] = some "d/sub/" ∧
    ((1073742080 &&& eventVal "CREATE" != 0) &&
     (1073742080 &&& eventVal "ISDIR" != 0)) = true := ⟨rfl, rfl, rfl⟩

/-- C3 counterexample: the claim states that an event carrying the
create bit is emitted if and only if the caller requested create.  An
event whose mask carries both the create and the ignored bits is
suppressed by the output filter even when create was requested, so the
only-if direction fails at mask 0x8100 with the visibility boolean
true. -/
theorem create_with_ignored_suppressed :
    ((33024 &&& eventVal "CREATE") != 0) = true ∧
    event_visible 33024 true = false := ⟨rfl, rfl⟩

/-- C3 amended: for every event mask carrying the create bit and not
the ignored bit, the event is caller-visible exactly when the single
startup boolean `_include_create_event` is true; in particular the
create events force-enabled by recursive mode are never emitted when
the caller did not request create. -/
theorem create_visibility (flags : Nat) (ic : Bool)
    (hc : (flags &&& eventVal "CREATE" != 0) = true)
    (hi : (flags &&& eventVal "IGNORED" != 0) = false) :
    event_visible flags ic = ic := by
  cases ic <;> simp [event_visible, hi, hc]

/-- Witness for the create visibility theorem at the bare create mask:
requested create is visible. -/
theorem create_visibility_witness :
    ((256 &&& eventVal "CREATE" != 0) = true) ∧
    ((256 &&& eventVal "IGNORED" != 0) = false) ∧
    event_visible 256 true = true :=
  ⟨rfl, rfl, create_visibility 256 true rfl rfl⟩

/-- Names cleaned by `replace(chr(0), str())` contain no NUL
character. -/
theorem stripNul_no_nul (s : String) : Char.ofNat 0 ∉ (stripNul s).data := by
  simp [stripNul, List.mem_filter]

/-- Every successful `_detect` step either yields nothing or yields a
triple whose name component is the NUL-stripped event name. -/
theorem detect_step_output_shape (ic rm : Bool) (awr : Int) (s : DetectState)
    (ev : Event) (res : StepResult)
    (h : detect_step ic rm awr s ev = Except.ok res) :
    res.output = none ∨
    ∃ d, res.output = some (d, decode_flag ev.flags, stripNul ev.name) := by
  unfold detect_step at h
  cases hd : dictGet ev.wd s.table with
  | none => rw [hd] at h; exact absurd h (by simp)
  | some d =>
    rw [hd] at h
    simp only at h
    by_cases hv : event_visible ev.flags ic
    · refine Or.inr ⟨d, ?_⟩
      simp only [hv, if_pos] at h
      repeat' split at h
      all_goals first
        | (injection h with h2; subst h2; rfl)
        | exact absurd h (by simp)
    · refine Or.inl ?_
      simp only [eq_false_of_ne_true hv, if_neg, Bool.false_eq_true, if_false] at h
      repeat' split at h
      all_goals first
        | (injection h with h2; subst h2; rfl)
        | exact absurd h (by simp)

/-- C10: every event triple yielded to the caller by a `_detect` step,
in any mode, has a file-name component containing no NUL byte, because
the kernel padding is stripped by `replace(chr(0), str())` before the
yield (src line 303). -/
theorem emitted_name_no_nul (ic rm : Bool) (awr : Int) (s : DetectState)
    (ev : Event) (res : StepResult) (out : String × List String × String)
    (h : detect_step ic rm awr s ev = Except.ok res)
    (ho : res.output = some out) :
    Char.ofNat 0 ∉ out.2.2.data := by
  rcases detect_step_output_shape ic rm awr s ev res h with hn | ⟨d, hs⟩
  · rw [hn] at ho; exact absurd ho (by simp)
  · rw [hs] at ho
    injection ho with ho2
    rw [← ho2]
    exact stripNul_no_nul ev.name

/-- Witness for the emitted-name theorem: a modify event whose kernel
name is NUL-padded is yielded with the padding stripped. -/
theorem emitted_name_no_nul_witness :
    Char.ofNat 0 ∉ ("a" : String).data :=
  emitted_name_no_nul true false 0 ⟨[(1, "d/")], none⟩ ⟨1, 2, "a\x00\x00"⟩
    ⟨some ("d/", ["MODIFY"], "a"), ⟨[(1, "d/")], none⟩⟩ ("d/", ["MODIFY"], "a")
    rfl rfl

/-- Round trip of a 32-bit field through its little-endian byte
image. -/
theorem le32dec_le32 (n : Nat) (h : n < 4294967296) :
    le32dec (n % 256) (n / 256 % 256) (n / 65536 % 256)
      (n / 16777216 % 256) = n := by
  simp only [le32dec]
  omega

/-- Round trip of a signed watch descriptor through its unsigned 32-bit
image. -/
theorem i32dec_u32enc (w : Int) (h1 : -2147483648 <= w)
    (h2 : w < 2147483648) : i32dec (u32enc w) = w := by
  simp only [i32dec, u32enc]
  split <;> omega

/-- The fuelled parsing loop decodes a concatenation of well-formed
records into exactly one triple per record, in record order, for any
sufficient fuel. -/
theorem decoder_go_records (rs : List InotifyRecord) :
    ∀ fuel, (∀ r ∈ rs, wfRecord r) → (encode_records rs).length ≤ fuel →
    detect_inotify_go fuel (encode_records rs)
      = some (rs.map (fun r => (r.wd, r.mask, r.name))) := by
  induction rs with
  | nil => intro fuel _ _; cases fuel <;> rfl
  | cons r rs ih =>
    intro fuel h hlen
    obtain ⟨hw1, hw2, hm, hc, hn⟩ := h r (by simp)
    cases fuel with
    | zero =>
      exfalso
      simp [encode_records, encode_record, le32, List.length_append] at hlen
    | succ f =>
      have ih2 := ih f (fun x hx => h x (by simp [hx])) (by
        simp only [encode_records, List.map_cons, List.flatten_cons,
          List.length_append, encode_record, le32, List.length_cons,
          List.length_nil] at hlen ⊢
        omega)
      simp only [encode_records, List.map_cons, List.flatten_cons,
        encode_record, le32, List.cons_append, List.nil_append,
        List.append_assoc]
      rw [detect_inotify_go]
      simp only [le32dec_le32 r.name.length hn]
      rw [List.take_left, List.drop_left]
      rw [show ((rs.map encode_record).flatten) = encode_records rs from rfl]
      rw [ih2]
      simp only [le32dec_le32 (u32enc r.wd) (by simp only [u32enc]; omega),
        le32dec_le32 r.mask hm, i32dec_u32enc r.wd hw1 hw2, List.map_cons]

/-- C6 counterexample: the claim states the decoder produces a
`(watch_id, mask, cookie, name)` tuple per record.  The code yields
only `[wd, mask, name]` (src line 110): two single-record buffers that
differ exactly in the cookie field (5 versus 9) decode to identical
output, so the produced tuples cannot contain the cookie. -/
theorem decoder_drops_cookie :
    detect_inotify_parse (encode_record ⟨1, 2, 5, [97]⟩)
      = detect_inotify_parse (encode_record ⟨1, 2, 9, [97]⟩) ∧
    encode_record ⟨1, 2, 5, [97]⟩ ≠ encode_record ⟨1, 2, 9, [97]⟩ ∧
    detect_inotify_parse (encode_record ⟨1, 2, 5, [97]⟩)
      = some [(1, 2, [97])] := ⟨rfl, by decide, rfl⟩

/-- C6 amended: for every buffer that is a concatenation of well-formed
notification records (a 16-byte header of four 32-bit fields - watch
id, mask, cookie, name length - followed by exactly nameLength bytes of
NUL-padded name), the event stream decoder produces exactly one
`(watch_id, mask, name)` triple per record - the cookie field is
consumed from each header but not included in the produced tuple - in
record order, consuming exactly nameLength bytes after each header
until the buffer is exhausted. -/
theorem decoder_records (rs : List InotifyRecord)
    (h : ∀ r ∈ rs, wfRecord r) :
    detect_inotify_parse (encode_records rs)
      = some (rs.map (fun r => (r.wd, r.mask, r.name))) :=
  decoder_go_records rs (encode_records rs).length h (Nat.le_refl _)

/-- Witness for the decoder theorem: a two-record buffer decodes to its
two triples in order. -/
theorem decoder_records_witness :
    (∀ r ∈ [(⟨1, 256, 7, [97, 0, 0]⟩ : InotifyRecord),
            ⟨2, 512, 0, [98, 99]⟩], wfRecord r) ∧
    detect_inotify_parse (encode_records
        [⟨1, 256, 7, [97, 0, 0]⟩, ⟨2, 512, 0, [98, 99]⟩])
      = some [(1, 256, [97, 0, 0]), (2, 512, [98, 99])] :=
  ⟨by decide, decoder_records
    [⟨1, 256, 7, [97, 0, 0]⟩, ⟨2, 512, 0, [98, 99]⟩] (by decide)⟩

/-- Every target list containing a path whose normalized form does not
exist makes the collection loop of `wait` raise FileNotFoundError. -/
theorem collect_paths_error (fs : FileSystem) (rm : Bool) :
    ∀ targets : List String,
    (∃ p ∈ targets, fs.pathExists (fs.normpath p) = false) →
    ∃ e, collect_paths fs rm targets = Except.error e := by
  intro targets
  induction targets with
  | nil => rintro ⟨p, hp, _⟩; cases hp
  | cons t ts ih =>
    rintro ⟨p, hp, hex⟩
    by_cases he : fs.pathExists (fs.normpath t)
    · rcases List.mem_cons.mp hp with h1 | h1
      · subst h1; rw [he] at hex; cases hex
      · obtain ⟨e, hee⟩ := ih ⟨p, h1, hex⟩
        exact ⟨e, by simp [collect_paths, he, hee]⟩
    · exact ⟨"specified file is not exist: " ++ fs.normpath t,
        by simp [collect_paths, eq_false_of_ne_true he]⟩

/-- C7: for every requested path list in which at least one root path
does not exist, session setup fails with the path-not-found outcome
before any watch is registered: the trace of `inotify_add_watch` calls
is empty and the Watch Table stays empty, because the source collects
and existence-checks every path before the registration loop runs. -/
theorem setup_aborts_on_missing_path (fs : FileSystem)
    (addWatch : String → Int) (rm : Bool) (targets : List String)
    (h : ∃ p ∈ targets, fs.pathExists (fs.normpath p) = false) :
    (∃ e, (wait_setup fs addWatch rm targets).outcome = Except.error e) ∧
    (wait_setup fs addWatch rm targets).calls = [] ∧
    (wait_setup fs addWatch rm targets).table = [] := by
  obtain ⟨e, hc⟩ := collect_paths_error fs rm targets h
  exact ⟨⟨e, by simp [wait_setup, hc]⟩, by simp [wait_setup, hc],
    by simp [wait_setup, hc]⟩

/-- Witness for the setup-abort theorem: a filesystem where nothing
exists, one requested root. -/
theorem setup_aborts_witness :
    (∃ p ∈ ["missing"], (FileSystem.mk id (fun _ => false)
        (fun _ => false) (fun _ => [])).pathExists
        ((FileSystem.mk id (fun _ => false) (fun _ => false)
          (fun _ => [])).normpath p) = false) ∧
    ((∃ e, (wait_setup (FileSystem.mk id (fun _ => false) (fun _ => false)
        (fun _ => [])) (fun _ => 1) true ["missing"]).outcome
          = Except.error e) ∧
      (wait_setup (FileSystem.mk id (fun _ => false) (fun _ => false)
        (fun _ => [])) (fun _ => 1) true ["missing"]).calls = [] ∧
      (wait_setup (FileSystem.mk id (fun _ => false) (fun _ => false)
        (fun _ => [])) (fun _ => 1) true ["missing"]).table = []) :=
  ⟨⟨"missing", by simp⟩,
    setup_aborts_on_missing_path _ _ true ["missing"] ⟨"missing", by simp⟩⟩

/-- C8: for every session configured with a positive timeout in which
no event arrives within the quiet period, the armed watchdog fires and
its SIGQUIT delivery reaches the handler `wait` installed, terminating
the session with the distinct timed-out status 2, which is not the OK
status. -/
theorem timeout_yields_status_two (timeout : ℚ) (h : 0 < timeout) :
    session_timeout_status timeout false = some 2 ∧
    (2 : Nat) ≠ OK_STATUS := by
  constructor
  · simp [session_timeout_status, watchdog_armed, timeout_exit_status,
      wait_signal_table, kill_timer_signal, handler, h]
  · decide

/-- Witness for the timeout theorem at a two-second quiet period. -/
theorem timeout_yields_status_two_witness :
    (0 : ℚ) < 2 ∧ (session_timeout_status 2 false = some 2 ∧
      (2 : Nat) ≠ OK_STATUS) :=
  ⟨by norm_num, timeout_yields_status_two 2 (by norm_num)⟩
